import Mathlib

/-!
Verification of the NurseRounds frontend form logic: a shallow embedding of
the pure parts of `src/frontend/src/lib/utils.js`,
`src/frontend/src/pages/NewVisitPage.js`, `src/frontend/src/pages/DashboardPage.js`
(InterventionPage), `src/frontend/src/pages/RegisterPage.js` (UnableToContactPage)
and `src/frontend/src/pages/VisitDetailPage.js` (generatePDF), together with
theorems about blood-pressure abnormality detection, form-state updates,
submission validation, payload shaping and report rendering.
-/

set_option maxHeartbeats 1000000
set_option maxRecDepth 100000

/-- Decimal digit characters of a natural number, most significant first. -/
def natDigits (n : Nat) : List Char :=
  if n < 10 then [Char.ofNat (48 + n)]
  else natDigits (n / 10) ++ [Char.ofNat (48 + n % 10)]
termination_by n
decreasing_by exact Nat.div_lt_self (by omega) (by omega)

/-- Decimal rendering of an integer, modelling JavaScript number-to-string
conversion for integral values. -/
def intToStr (n : Int) : String :=
  ((if n < 0 then ['-'] else []) ++ natDigits n.natAbs).asString

/-- The digit list of a natural number is never empty. -/
theorem natDigits_ne_nil (n : Nat) : natDigits n ≠ [] := by
  rw [natDigits]
  split <;> simp

/-- The decimal rendering of an integer is never the empty string. -/
theorem intToStr_ne_empty (n : Int) : intToStr n ≠ "" := by
  unfold intToStr
  intro h
  have hl : ((if n < 0 then ['-'] else []) ++ natDigits n.natAbs) = [] := by
    simpa [List.asString, String.ext_iff] using h
  rcases List.append_eq_nil.mp hl with ⟨-, h2⟩
  exact natDigits_ne_nil n.natAbs h2

/-- Dynamic JavaScript value as it occurs in the form state: `null`/`undefined`,
a boolean, an integer number, or a string. -/
inductive JsVal where
  | null : JsVal
  | b : Bool → JsVal
  | num : Int → JsVal
  | str : String → JsVal
deriving DecidableEq, Repr

namespace JsVal

/-- Truthiness of a JavaScript value (`if (v)`): null/undefined, false, 0 and
the empty string are falsy. -/
def truthy : JsVal → Bool
  | .null => false
  | .b bv => bv
  | .num n => n != 0
  | .str s => s != ""

/-- String conversion of a JavaScript value, as performed by template literals
and by `parseInt` on a non-string argument. -/
def toStr : JsVal → String
  | .null => "null"
  | .b true => "true"
  | .b false => "false"
  | .num n => intToStr n
  | .str s => s

end JsVal

/-- Whitespace characters skipped by JavaScript `parseInt` (and matched by the
regexp class `\s`), restricted to the ASCII range. -/
def isJsWhitespace (c : Char) : Bool :=
  c = ' ' || c = '\t' || c = '\n' || c = '\r' || c = '\x0b' || c = '\x0c'

/-- Numeric value of a digit character in a given radix (10 or 16). -/
def digitVal (c : Char) : Nat :=
  if '0' ≤ c ∧ c ≤ '9' then c.toNat - '0'.toNat
  else if 'a' ≤ c ∧ c ≤ 'f' then c.toNat - 'a'.toNat + 10
  else if 'A' ≤ c ∧ c ≤ 'F' then c.toNat - 'A'.toNat + 10
  else 0

/-- Test for a decimal digit character. -/
def isDecDigit (c : Char) : Bool := '0' ≤ c && c ≤ '9'

/-- Test for a hexadecimal digit character. -/
def isHexDigit (c : Char) : Bool :=
  ('0' ≤ c && c ≤ '9') || ('a' ≤ c && c ≤ 'f') || ('A' ≤ c && c ≤ 'F')

/-- Accumulate the value of a digit list in the given radix. -/
def digitsVal (radix : Nat) (ds : List Char) : Nat :=
  ds.foldl (fun acc c => acc * radix + digitVal c) 0

/-- Model of JavaScript `parseInt(s)` with the radix argument omitted: skip
leading whitespace, read an optional sign, recognise a `0x`/`0X` prefix as
hexadecimal, then consume the longest prefix of digits; `none` models `NaN`.
This gives the leading-digit semantics under which `"120abc"` parses as `120`. -/
def parseIntJS (s : String) : Option Int :=
  let cs := s.toList.dropWhile isJsWhitespace
  let signAndRest : Int × List Char :=
    match cs with
    | '-' :: r => (-1, r)
    | '+' :: r => (1, r)
    | _ => (1, cs)
  let sign := signAndRest.1
  match signAndRest.2 with
  | '0' :: 'x' :: r =>
      let ds := r.takeWhile isHexDigit
      if ds.isEmpty then none else some (sign * (digitsVal 16 ds : Int))
  | '0' :: 'X' :: r =>
      let ds := r.takeWhile isHexDigit
      if ds.isEmpty then none else some (sign * (digitsVal 16 ds : Int))
  | other =>
      let ds := other.takeWhile isDecDigit
      if ds.isEmpty then none else some (sign * (digitsVal 10 ds : Int))

/-- Embedding of `isBloodPressureAbnormal` from `src/frontend/src/lib/utils.js`:
parse both readings with `parseInt`; if either is `NaN` return `false`,
otherwise apply the threshold rule. -/
def isBloodPressureAbnormal (systolic diastolic : JsVal) : Bool :=
  match parseIntJS systolic.toStr, parseIntJS diastolic.toStr with
  | some sys, some dia =>
      decide (sys ≥ 140) || decide (dia ≥ 90) || decide (sys < 90) || decide (dia < 60)
  | _, _ => false

/-- C1: on string inputs, `isBloodPressureAbnormal` returns true iff both
readings parse under JavaScript `parseInt` leading-digit semantics to values
with systolic ≥ 140 or diastolic ≥ 90 or systolic < 90 or diastolic < 60; it
returns false whenever either value fails to parse, and `"120abc"` parses
as `120`. -/
theorem isBloodPressureAbnormal_iff (s d : String) :
    (isBloodPressureAbnormal (.str s) (.str d) = true ↔
      ∃ sys dia : Int, parseIntJS s = some sys ∧ parseIntJS d = some dia ∧
        (sys ≥ 140 ∨ dia ≥ 90 ∨ sys < 90 ∨ dia < 60)) ∧
    ((parseIntJS s = none ∨ parseIntJS d = none) →
      isBloodPressureAbnormal (.str s) (.str d) = false) ∧
    parseIntJS "120abc" = some 120 := by
  refine ⟨?_, ?_, by decide⟩
  · unfold isBloodPressureAbnormal
    simp only [JsVal.toStr]
    rcases hs : parseIntJS s with _ | sys <;>
      rcases hd : parseIntJS d with _ | dia <;> simp [hs, hd]
    tauto
  · intro h
    unfold isBloodPressureAbnormal
    simp only [JsVal.toStr]
    rcases h with h | h
    · simp [h]
    · rcases parseIntJS s with _ | sys <;> simp [h]

/-- Witness for C1 at a concrete abnormal pair. -/
theorem isBloodPressureAbnormal_iff_witness :
    isBloodPressureAbnormal (.str "145") (.str "80") = true :=
  (isBloodPressureAbnormal_iff "145" "80").1.mpr
    ⟨145, 80, by decide, by decide, by decide⟩

/-! ## Visit form state model (NewVisitPage.js) -/

/-- Sub-record `vital_signs` of the visit form state. -/
structure VitalSigns where
  weight : JsVal
  body_temperature : JsVal
  blood_pressure_systolic : JsVal
  blood_pressure_diastolic : JsVal
  pulse_oximeter : JsVal
  pulse : JsVal
  respirations : JsVal
  repeat_blood_pressure_systolic : JsVal
  repeat_blood_pressure_diastolic : JsVal
  bp_abnormal : JsVal
deriving DecidableEq, Repr

/-- Sub-record `physical_assessment` of the visit form state. -/
structure PhysicalAssessment where
  general_appearance : JsVal
  skin_assessment : JsVal
  mobility_level : JsVal
  speech_level : JsVal
  alert_oriented_level : JsVal
deriving DecidableEq, Repr

/-- Sub-record `head_to_toe` of the visit form state. -/
structure HeadToToe where
  head_neck : JsVal
  eyes_vision : JsVal
  ears_hearing : JsVal
  nose_nasal_cavity : JsVal
  mouth_teeth_oral_cavity : JsVal
deriving DecidableEq, Repr

/-- Sub-record `gastrointestinal` of the visit form state. -/
structure Gastrointestinal where
  last_bowel_movement : JsVal
  bowel_sounds : JsVal
  nutritional_diet : JsVal
deriving DecidableEq, Repr

/-- Sub-record `genito_urinary` of the visit form state. -/
structure GenitoUrinary where
  toileting_level : JsVal
deriving DecidableEq, Repr

/-- Sub-record `respiratory` of the visit form state. -/
structure Respiratory where
  lung_sounds : JsVal
  oxygen_type : JsVal
deriving DecidableEq, Repr

/-- Sub-record `endocrine` of the visit form state. -/
structure Endocrine where
  is_diabetic : JsVal
  diabetic_notes : JsVal
  blood_sugar : JsVal
deriving DecidableEq, Repr

/-- Sub-record `changes_since_last` of the visit form state. -/
structure ChangesSinceLast where
  medication_changes : JsVal
  diagnosis_changes : JsVal
  er_urgent_care_visits : JsVal
  upcoming_appointments : JsVal
deriving DecidableEq, Repr

/-- Visit form state / persisted visit record (`visitData` in NewVisitPage.js,
`visit` in VisitDetailPage.js). -/
structure VisitData where
  visit_date : JsVal
  vital_signs : VitalSigns
  physical_assessment : PhysicalAssessment
  head_to_toe : HeadToToe
  gastrointestinal : Gastrointestinal
  genito_urinary : GenitoUrinary
  respiratory : Respiratory
  endocrine : Endocrine
  changes_since_last : ChangesSinceLast
  overall_health_status : JsVal
  nurse_notes : JsVal
deriving DecidableEq, Repr

/-- Field names of the `vital_signs` sub-record. -/
inductive VitalField where
  | weight | body_temperature | blood_pressure_systolic | blood_pressure_diastolic
  | pulse_oximeter | pulse | respirations
  | repeat_blood_pressure_systolic | repeat_blood_pressure_diastolic | bp_abnormal
deriving DecidableEq, Repr

/-- Field names of the `physical_assessment` sub-record. -/
inductive PhysField where
  | general_appearance | skin_assessment | mobility_level | speech_level | alert_oriented_level
deriving DecidableEq, Repr

/-- Field names of the `head_to_toe` sub-record. -/
inductive H2TField where
  | head_neck | eyes_vision | ears_hearing | nose_nasal_cavity | mouth_teeth_oral_cavity
deriving DecidableEq, Repr

/-- Field names of the `gastrointestinal` sub-record. -/
inductive GIField where
  | last_bowel_movement | bowel_sounds | nutritional_diet
deriving DecidableEq, Repr

/-- Field names of the `genito_urinary` sub-record. -/
inductive GUField where
  | toileting_level
deriving DecidableEq, Repr

/-- Field names of the `respiratory` sub-record. -/
inductive RespField where
  | lung_sounds | oxygen_type
deriving DecidableEq, Repr

/-- Field names of the `endocrine` sub-record. -/
inductive EndoField where
  | is_diabetic | diabetic_notes | blood_sugar
deriving DecidableEq, Repr

/-- Field names of the `changes_since_last` sub-record. -/
inductive ChangesField where
  | medication_changes | diagnosis_changes | er_urgent_care_visits | upcoming_appointments
deriving DecidableEq, Repr

/-- Read a field of `vital_signs` by name. -/
def VitalSigns.get (s : VitalSigns) : VitalField → JsVal
  | .weight => s.weight
  | .body_temperature => s.body_temperature
  | .blood_pressure_systolic => s.blood_pressure_systolic
  | .blood_pressure_diastolic => s.blood_pressure_diastolic
  | .pulse_oximeter => s.pulse_oximeter
  | .pulse => s.pulse
  | .respirations => s.respirations
  | .repeat_blood_pressure_systolic => s.repeat_blood_pressure_systolic
  | .repeat_blood_pressure_diastolic => s.repeat_blood_pressure_diastolic
  | .bp_abnormal => s.bp_abnormal

/-- Spread update `{ ...prev.vital_signs, [field]: value }`. -/
def VitalSigns.set (s : VitalSigns) : VitalField → JsVal → VitalSigns
  | .weight, v => { s with weight := v }
  | .body_temperature, v => { s with body_temperature := v }
  | .blood_pressure_systolic, v => { s with blood_pressure_systolic := v }
  | .blood_pressure_diastolic, v => { s with blood_pressure_diastolic := v }
  | .pulse_oximeter, v => { s with pulse_oximeter := v }
  | .pulse, v => { s with pulse := v }
  | .respirations, v => { s with respirations := v }
  | .repeat_blood_pressure_systolic, v => { s with repeat_blood_pressure_systolic := v }
  | .repeat_blood_pressure_diastolic, v => { s with repeat_blood_pressure_diastolic := v }
  | .bp_abnormal, v => { s with bp_abnormal := v }

/-- Read a field of `physical_assessment` by name. -/
def PhysicalAssessment.get (s : PhysicalAssessment) : PhysField → JsVal
  | .general_appearance => s.general_appearance
  | .skin_assessment => s.skin_assessment
  | .mobility_level => s.mobility_level
  | .speech_level => s.speech_level
  | .alert_oriented_level => s.alert_oriented_level

/-- Spread update of `physical_assessment`. -/
def PhysicalAssessment.set (s : PhysicalAssessment) : PhysField → JsVal → PhysicalAssessment
  | .general_appearance, v => { s with general_appearance := v }
  | .skin_assessment, v => { s with skin_assessment := v }
  | .mobility_level, v => { s with mobility_level := v }
  | .speech_level, v => { s with speech_level := v }
  | .alert_oriented_level, v => { s with alert_oriented_level := v }

/-- Read a field of `head_to_toe` by name. -/
def HeadToToe.get (s : HeadToToe) : H2TField → JsVal
  | .head_neck => s.head_neck
  | .eyes_vision => s.eyes_vision
  | .ears_hearing => s.ears_hearing
  | .nose_nasal_cavity => s.nose_nasal_cavity
  | .mouth_teeth_oral_cavity => s.mouth_teeth_oral_cavity

/-- Spread update of `head_to_toe`. -/
def HeadToToe.set (s : HeadToToe) : H2TField → JsVal → HeadToToe
  | .head_neck, v => { s with head_neck := v }
  | .eyes_vision, v => { s with eyes_vision := v }
  | .ears_hearing, v => { s with ears_hearing := v }
  | .nose_nasal_cavity, v => { s with nose_nasal_cavity := v }
  | .mouth_teeth_oral_cavity, v => { s with mouth_teeth_oral_cavity := v }

/-- Read a field of `gastrointestinal` by name. -/
def Gastrointestinal.get (s : Gastrointestinal) : GIField → JsVal
  | .last_bowel_movement => s.last_bowel_movement
  | .bowel_sounds => s.bowel_sounds
  | .nutritional_diet => s.nutritional_diet

/-- Spread update of `gastrointestinal`. -/
def Gastrointestinal.set (s : Gastrointestinal) : GIField → JsVal → Gastrointestinal
  | .last_bowel_movement, v => { s with last_bowel_movement := v }
  | .bowel_sounds, v => { s with bowel_sounds := v }
  | .nutritional_diet, v => { s with nutritional_diet := v }

/-- Read a field of `genito_urinary` by name. -/
def GenitoUrinary.get (s : GenitoUrinary) : GUField → JsVal
  | .toileting_level => s.toileting_level

/-- Spread update of `genito_urinary`. -/
def GenitoUrinary.set (s : GenitoUrinary) : GUField → JsVal → GenitoUrinary
  | .toileting_level, v => { s with toileting_level := v }

/-- Read a field of `respiratory` by name. -/
def Respiratory.get (s : Respiratory) : RespField → JsVal
  | .lung_sounds => s.lung_sounds
  | .oxygen_type => s.oxygen_type

/-- Spread update of `respiratory`. -/
def Respiratory.set (s : Respiratory) : RespField → JsVal → Respiratory
  | .lung_sounds, v => { s with lung_sounds := v }
  | .oxygen_type, v => { s with oxygen_type := v }

/-- Read a field of `endocrine` by name. -/
def Endocrine.get (s : Endocrine) : EndoField → JsVal
  | .is_diabetic => s.is_diabetic
  | .diabetic_notes => s.diabetic_notes
  | .blood_sugar => s.blood_sugar

/-- Spread update of `endocrine`. -/
def Endocrine.set (s : Endocrine) : EndoField → JsVal → Endocrine
  | .is_diabetic, v => { s with is_diabetic := v }
  | .diabetic_notes, v => { s with diabetic_notes := v }
  | .blood_sugar, v => { s with blood_sugar := v }

/-- Read a field of `changes_since_last` by name. -/
def ChangesSinceLast.get (s : ChangesSinceLast) : ChangesField → JsVal
  | .medication_changes => s.medication_changes
  | .diagnosis_changes => s.diagnosis_changes
  | .er_urgent_care_visits => s.er_urgent_care_visits
  | .upcoming_appointments => s.upcoming_appointments

/-- Spread update of `changes_since_last`. -/
def ChangesSinceLast.set (s : ChangesSinceLast) : ChangesField → JsVal → ChangesSinceLast
  | .medication_changes, v => { s with medication_changes := v }
  | .diagnosis_changes, v => { s with diagnosis_changes := v }
  | .er_urgent_care_visits, v => { s with er_urgent_care_visits := v }
  | .upcoming_appointments, v => { s with upcoming_appointments := v }

/-- Embedding of `updateVitalSign` from NewVisitPage.js. -/
def updateVitalSign (field : VitalField) (value : JsVal) (st : VisitData) : VisitData :=
  { st with vital_signs := st.vital_signs.set field value }

/-- Embedding of `updatePhysicalAssessment` from NewVisitPage.js. -/
def updatePhysicalAssessment (field : PhysField) (value : JsVal) (st : VisitData) : VisitData :=
  { st with physical_assessment := st.physical_assessment.set field value }

/-- Embedding of `updateHeadToToe` from NewVisitPage.js. -/
def updateHeadToToe (field : H2TField) (value : JsVal) (st : VisitData) : VisitData :=
  { st with head_to_toe := st.head_to_toe.set field value }

/-- Embedding of `updateGI` from NewVisitPage.js. -/
def updateGI (field : GIField) (value : JsVal) (st : VisitData) : VisitData :=
  { st with gastrointestinal := st.gastrointestinal.set field value }

/-- Embedding of `updateGU` from NewVisitPage.js. -/
def updateGU (field : GUField) (value : JsVal) (st : VisitData) : VisitData :=
  { st with genito_urinary := st.genito_urinary.set field value }

/-- Embedding of `updateRespiratory` from NewVisitPage.js. -/
def updateRespiratory (field : RespField) (value : JsVal) (st : VisitData) : VisitData :=
  { st with respiratory := st.respiratory.set field value }

/-- Embedding of `updateEndocrine` from NewVisitPage.js. -/
def updateEndocrine (field : EndoField) (value : JsVal) (st : VisitData) : VisitData :=
  { st with endocrine := st.endocrine.set field value }

/-- Embedding of `updateChanges` from NewVisitPage.js. -/
def updateChanges (field : ChangesField) (value : JsVal) (st : VisitData) : VisitData :=
  { st with changes_since_last := st.changes_since_last.set field value }

/-- The `initialVisitData` literal from NewVisitPage.js; `today` is the
date string produced at page load. -/
def initialVisitData (today : String) : VisitData :=
  { visit_date := .str today
    vital_signs :=
      { weight := .str "", body_temperature := .str "",
        blood_pressure_systolic := .str "", blood_pressure_diastolic := .str "",
        pulse_oximeter := .str "", pulse := .str "", respirations := .str "",
        repeat_blood_pressure_systolic := .str "", repeat_blood_pressure_diastolic := .str "",
        bp_abnormal := .b false }
    physical_assessment :=
      { general_appearance := .str "", skin_assessment := .str "",
        mobility_level := .str "", speech_level := .str "", alert_oriented_level := .str "" }
    head_to_toe :=
      { head_neck := .str "", eyes_vision := .str "", ears_hearing := .str "",
        nose_nasal_cavity := .str "", mouth_teeth_oral_cavity := .str "" }
    gastrointestinal :=
      { last_bowel_movement := .str "", bowel_sounds := .str "", nutritional_diet := .str "" }
    genito_urinary := { toileting_level := .str "" }
    respiratory := { lung_sounds := .str "", oxygen_type := .str "" }
    endocrine := { is_diabetic := .b false, diabetic_notes := .str "", blood_sugar := .str "" }
    changes_since_last :=
      { medication_changes := .str "", diagnosis_changes := .str "",
        er_urgent_care_visits := .str "", upcoming_appointments := .str "" }
    overall_health_status := .str ""
    nurse_notes := .str "" }

/-! ## Derived bp_abnormal effect (NewVisitPage.js, lines 98-106) -/

/-- The reactive effect watching the blood-pressure pair: if the current pair
is abnormal and `bp_abnormal` is not already set, it stores `true`; the code
has no branch that ever clears the flag. -/
def bpEffect (st : VisitData) : VisitData :=
  if isBloodPressureAbnormal st.vital_signs.blood_pressure_systolic
        st.vital_signs.blood_pressure_diastolic
      && !st.vital_signs.bp_abnormal.truthy then
    updateVitalSign .bp_abnormal (.b true) st
  else st

/-- One user edit of a vital-sign text input: apply `updateVitalSign`, then run
the effect when the edited field is one of the two blood-pressure inputs (the
effect's dependency array). -/
def stepVitalInput (st : VisitData) (e : VitalField × String) : VisitData :=
  let st1 := updateVitalSign e.1 (.str e.2) st
  if e.1 = .blood_pressure_systolic ∨ e.1 = .blood_pressure_diastolic then bpEffect st1 else st1

/-- Fold a sequence of vital-sign edits over a starting form state. -/
def applyVitalInputs (st : VisitData) (es : List (VitalField × String)) : VisitData :=
  es.foldl stepVitalInput st

/-- Truthiness of a boolean value is the boolean itself. -/
@[simp] theorem JsVal.truthy_b (bv : Bool) : (JsVal.b bv).truthy = bv := rfl

/-- Truthiness of null is false. -/
@[simp] theorem JsVal.truthy_null : JsVal.null.truthy = false := rfl

/-- Truthiness of a number is its being nonzero. -/
@[simp] theorem JsVal.truthy_num (n : Int) : (JsVal.num n).truthy = (n != 0) := rfl

/-- Truthiness of a string is its being nonempty. -/
@[simp] theorem JsVal.truthy_str (s : String) : (JsVal.str s).truthy = (s != "") := rfl

/-- Setting a vital-sign field other than `bp_abnormal` leaves `bp_abnormal`
unchanged. -/
theorem VitalSigns.set_bp_abnormal_of_ne (s : VitalSigns) (f : VitalField) (v : JsVal)
    (h : f ≠ .bp_abnormal) : (s.set f v).bp_abnormal = s.bp_abnormal := by
  cases f <;> first | rfl | exact absurd rfl h

/-- A non-blood-pressure edit does not touch the stored `bp_abnormal` flag. -/
theorem stepVitalInput_bp_abnormal_frame (st : VisitData) (f : VitalField) (v : String)
    (hf : ¬(f = .blood_pressure_systolic ∨ f = .blood_pressure_diastolic))
    (hba : f ≠ .bp_abnormal) :
    (stepVitalInput st (f, v)).vital_signs.bp_abnormal = st.vital_signs.bp_abnormal := by
  unfold stepVitalInput
  rw [if_neg hf]
  exact VitalSigns.set_bp_abnormal_of_ne st.vital_signs f (.str v) hba

/-- Running the effect sets the flag to the OR of its previous value and
abnormality of the current pair. -/
theorem bpEffect_bp_abnormal_truthy (st : VisitData) :
    (bpEffect st).vital_signs.bp_abnormal.truthy =
      (st.vital_signs.bp_abnormal.truthy ||
        isBloodPressureAbnormal st.vital_signs.blood_pressure_systolic
          st.vital_signs.blood_pressure_diastolic) := by
  unfold bpEffect
  cases ht : st.vital_signs.bp_abnormal.truthy <;>
    cases habn : isBloodPressureAbnormal st.vital_signs.blood_pressure_systolic
        st.vital_signs.blood_pressure_diastolic <;>
      simp [ht, habn, updateVitalSign, VitalSigns.set]

/-- After an edit of either blood-pressure input, the stored flag is the old
flag OR-ed with abnormality of the new pair: it is set when the pair becomes
abnormal and merely kept when the pair returns to normal. -/
theorem stepVitalInput_bp_abnormal_or (st : VisitData) (f : VitalField) (v : String)
    (hf : f = .blood_pressure_systolic ∨ f = .blood_pressure_diastolic) :
    (stepVitalInput st (f, v)).vital_signs.bp_abnormal.truthy =
      (st.vital_signs.bp_abnormal.truthy ||
        isBloodPressureAbnormal
          (updateVitalSign f (.str v) st).vital_signs.blood_pressure_systolic
          (updateVitalSign f (.str v) st).vital_signs.blood_pressure_diastolic) := by
  have hba : (updateVitalSign f (.str v) st).vital_signs.bp_abnormal =
      st.vital_signs.bp_abnormal := by
    apply VitalSigns.set_bp_abnormal_of_ne
    rcases hf with rfl | rfl <;> decide
  simp only [stepVitalInput]
  rw [if_pos hf, bpEffect_bp_abnormal_truthy, hba]

/-- A single edit (to any input-bound vital-sign field) never clears a set
`bp_abnormal` flag. -/
theorem stepVitalInput_mono (st : VisitData) (e : VitalField × String)
    (hne : e.1 ≠ .bp_abnormal) (h : st.vital_signs.bp_abnormal.truthy = true) :
    (stepVitalInput st e).vital_signs.bp_abnormal.truthy = true := by
  obtain ⟨f, v⟩ := e
  by_cases hf : f = .blood_pressure_systolic ∨ f = .blood_pressure_diastolic
  · rw [stepVitalInput_bp_abnormal_or st f v hf, h, Bool.true_or]
  · rw [stepVitalInput_bp_abnormal_frame st f v hf hne]
    exact h

/-- C2 counterexample trace: the blood-pressure pair is made abnormal and then
edited back to a normal reading. -/
def bpEditTrace : List (VitalField × String) :=
  [(.blood_pressure_systolic, "150"), (.blood_pressure_diastolic, "95"),
   (.blood_pressure_systolic, "120"), (.blood_pressure_diastolic, "80")]

/-- C2 is false as stated: after editing an abnormal pair (150/95) back to a
normal one (120/80), the stored `vital_signs.bp_abnormal` remains `true`
although the current pair no longer satisfies the abnormality rule — the
effect in NewVisitPage.js lines 98-106 never resets the flag. -/
theorem bp_abnormal_counterexample :
    (applyVitalInputs (initialVisitData "") bpEditTrace).vital_signs.bp_abnormal = .b true ∧
    isBloodPressureAbnormal
      (applyVitalInputs (initialVisitData "") bpEditTrace).vital_signs.blood_pressure_systolic
      (applyVitalInputs (initialVisitData "") bpEditTrace).vital_signs.blood_pressure_diastolic
      = false := by
  constructor <;> decide

/-- C2 amended: across any sequence of edits to the vital-sign inputs, the
stored `bp_abnormal` flag is monotone (once true it is never reset, even when
the pair returns to normal); each edit of a blood-pressure input updates it to
the OR of its previous value and abnormality of the current pair; edits of
other fields leave it unchanged. -/
theorem bp_abnormal_sticky :
    (∀ (st : VisitData) (es : List (VitalField × String)),
      (∀ e ∈ es, e.1 ≠ VitalField.bp_abnormal) →
      st.vital_signs.bp_abnormal.truthy = true →
      (applyVitalInputs st es).vital_signs.bp_abnormal.truthy = true) ∧
    (∀ (st : VisitData) (f : VitalField) (v : String),
      f = .blood_pressure_systolic ∨ f = .blood_pressure_diastolic →
      (stepVitalInput st (f, v)).vital_signs.bp_abnormal.truthy =
        (st.vital_signs.bp_abnormal.truthy ||
          isBloodPressureAbnormal
            (updateVitalSign f (.str v) st).vital_signs.blood_pressure_systolic
            (updateVitalSign f (.str v) st).vital_signs.blood_pressure_diastolic)) ∧
    (∀ (st : VisitData) (f : VitalField) (v : String),
      ¬(f = .blood_pressure_systolic ∨ f = .blood_pressure_diastolic) →
      f ≠ .bp_abnormal →
      (stepVitalInput st (f, v)).vital_signs.bp_abnormal = st.vital_signs.bp_abnormal) := by
  refine ⟨?_, stepVitalInput_bp_abnormal_or, stepVitalInput_bp_abnormal_frame⟩
  intro st es
  induction es generalizing st with
  | nil => intro _ h; exact h
  | cons e es ih =>
      intro hall h
      exact ih (stepVitalInput st e) (fun x hx => hall x (List.mem_cons_of_mem e hx))
        (stepVitalInput_mono st e (hall e (List.mem_cons_self e es)) h)

/-- Witness for C2 (amended): concrete application of the monotonicity
conjunct — a set flag survives a later edit back to a normal pair. -/
theorem bp_abnormal_sticky_witness :
    (applyVitalInputs
      (updateVitalSign .bp_abnormal (.b true) (initialVisitData ""))
      [(.blood_pressure_systolic, "120")]).vital_signs.bp_abnormal.truthy = true :=
  bp_abnormal_sticky.1 _ _ (by decide) (by decide)

/-! ## Intervention form model (DashboardPage.js, InterventionPage) -/

/-- Sub-record `injection_details` of the intervention form. -/
structure InjectionDetails where
  is_vaccination : JsVal
  vaccination_type : JsVal
  vaccination_other : JsVal
  non_vaccination_type : JsVal
  non_vaccination_other : JsVal
  dose : JsVal
  route : JsVal
  site : JsVal
  verified_no_allergic_reaction : JsVal
  cleaned_injection_site : JsVal
  adhered_8_rights : JsVal
deriving DecidableEq, Repr

/-- Sub-record `test_details` of the intervention form. -/
structure TestDetails where
  test_type : JsVal
  test_other : JsVal
  tb_placement_site : JsVal
  tb_arm : JsVal
  result : JsVal
  notes : JsVal
deriving DecidableEq, Repr

/-- Sub-record `treatment_details` of the intervention form. -/
structure TreatmentDetails where
  treatment_type : JsVal
  treatment_other : JsVal
  notes : JsVal
deriving DecidableEq, Repr

/-- Sub-record `procedure_details` of the intervention form. -/
structure ProcedureDetails where
  procedure_type : JsVal
  procedure_other : JsVal
  body_site : JsVal
  suture_count : JsVal
  ear_side : JsVal
  notes : JsVal
deriving DecidableEq, Repr

/-- Intervention draft state (`formData` in InterventionPage). -/
structure InterventionForm where
  patient_id : JsVal
  intervention_date : JsVal
  location : JsVal
  body_temperature : JsVal
  mood_scale : JsVal
  intervention_type : JsVal
  injection_details : InjectionDetails
  test_details : TestDetails
  treatment_details : TreatmentDetails
  procedure_details : ProcedureDetails
  verified_patient_identity : JsVal
  donned_proper_ppe : JsVal
  notes : JsVal
deriving DecidableEq, Repr

/-- The initial `formData` literal of InterventionPage. -/
def initialInterventionData (patientId today : String) : InterventionForm :=
  { patient_id := .str patientId
    intervention_date := .str today
    location := .str ""
    body_temperature := .str ""
    mood_scale := .null
    intervention_type := .str "injection"
    injection_details :=
      { is_vaccination := .b true, vaccination_type := .str "", vaccination_other := .str "",
        non_vaccination_type := .str "", non_vaccination_other := .str "",
        dose := .str "", route := .str "", site := .str "",
        verified_no_allergic_reaction := .b false, cleaned_injection_site := .b false,
        adhered_8_rights := .b false }
    test_details :=
      { test_type := .str "", test_other := .str "", tb_placement_site := .str "",
        tb_arm := .str "", result := .str "", notes := .str "" }
    treatment_details := { treatment_type := .str "", treatment_other := .str "", notes := .str "" }
    procedure_details :=
      { procedure_type := .str "", procedure_other := .str "", body_site := .str "",
        suture_count := .str "", ear_side := .str "", notes := .str "" }
    verified_patient_identity := .b false
    donned_proper_ppe := .b false
    notes := .str "" }

/-- Embedding of `validateForm` from InterventionPage: returns the first error
message, or `none` when the draft passes. -/
def validateForm (f : InterventionForm) : Option String :=
  if !f.location.truthy then some "Please select the location"
  else if !f.verified_patient_identity.truthy then some "Please verify patient identity"
  else if !f.donned_proper_ppe.truthy then some "Please confirm proper PPE was donned"
  else if f.intervention_type == JsVal.str "injection" then
    if !f.injection_details.verified_no_allergic_reaction.truthy then
      some "Please verify patient has no allergic reaction to this injection"
    else if !f.injection_details.cleaned_injection_site.truthy then
      some "Please confirm injection site was cleaned"
    else if !f.injection_details.adhered_8_rights.truthy then
      some "Please confirm adherence to the 8 rights of medication administration"
    else none
  else none

/-- The six validation rules of the spec, in their fixed order: rule k applies
to every draft for k ≤ 2 and only to injection drafts for k ≥ 3. -/
def interventionRuleApplies (f : InterventionForm) (k : Fin 6) : Bool :=
  if k.val ≤ 2 then true else f.intervention_type == JsVal.str "injection"

/-- Whether rule k is satisfied by the draft. -/
def interventionRuleOk (f : InterventionForm) (k : Fin 6) : Bool :=
  match k.val with
  | 0 => f.location.truthy
  | 1 => f.verified_patient_identity.truthy
  | 2 => f.donned_proper_ppe.truthy
  | 3 => f.injection_details.verified_no_allergic_reaction.truthy
  | 4 => f.injection_details.cleaned_injection_site.truthy
  | _ => f.injection_details.adhered_8_rights.truthy

/-- The error message reported when rule k fails. -/
def interventionRuleMsg (k : Fin 6) : String :=
  match k.val with
  | 0 => "Please select the location"
  | 1 => "Please verify patient identity"
  | 2 => "Please confirm proper PPE was donned"
  | 3 => "Please verify patient has no allergic reaction to this injection"
  | 4 => "Please confirm injection site was cleaned"
  | _ => "Please confirm adherence to the 8 rights of medication administration"

/-- C3: `validateForm` passes iff every applicable rule holds, and it reports
the message of rule k iff rule k applies, fails, and every applicable earlier
rule holds — i.e. exactly the first failing rule in the fixed order, with
rules 4-6 skipped for non-injection drafts. -/
theorem validateForm_first_failing (f : InterventionForm) :
    (validateForm f = none ↔
      ∀ k : Fin 6, interventionRuleApplies f k = true → interventionRuleOk f k = true) ∧
    (∀ k : Fin 6, validateForm f = some (interventionRuleMsg k) ↔
      (interventionRuleApplies f k = true ∧ interventionRuleOk f k = false ∧
        ∀ j : Fin 6, j < k → interventionRuleApplies f j = true →
          interventionRuleOk f j = true)) := by
  cases hb0 : f.location.truthy <;>
    cases hb1 : f.verified_patient_identity.truthy <;>
      cases hb2 : f.donned_proper_ppe.truthy <;>
        cases hbinj : f.intervention_type == JsVal.str "injection" <;>
          cases hb3 : f.injection_details.verified_no_allergic_reaction.truthy <;>
            cases hb4 : f.injection_details.cleaned_injection_site.truthy <;>
              cases hb5 : f.injection_details.adhered_8_rights.truthy <;>
                simp only [validateForm, interventionRuleApplies, interventionRuleOk,
                  interventionRuleMsg, hb0, hb1, hb2, hbinj, hb3, hb4, hb5] <;>
                  decide

/-- Record shape sent to `interventionsAPI.create`: the four detail
sub-records become explicit nulls unless they match `intervention_type`. -/
structure InterventionSubmit where
  patient_id : JsVal
  intervention_date : JsVal
  location : JsVal
  body_temperature : JsVal
  mood_scale : JsVal
  intervention_type : JsVal
  injection_details : Option InjectionDetails
  test_details : Option TestDetails
  treatment_details : Option TreatmentDetails
  procedure_details : Option ProcedureDetails
  verified_patient_identity : JsVal
  donned_proper_ppe : JsVal
  notes : JsVal
deriving DecidableEq, Repr

/-- Embedding of the `submitData` construction in InterventionPage's
`handleSubmit` (lines 510-516): spread the draft, then replace each detail
sub-record with `null` unless its type matches `intervention_type`. -/
def submitData (f : InterventionForm) : InterventionSubmit :=
  { patient_id := f.patient_id
    intervention_date := f.intervention_date
    location := f.location
    body_temperature := f.body_temperature
    mood_scale := f.mood_scale
    intervention_type := f.intervention_type
    injection_details :=
      if f.intervention_type == JsVal.str "injection" then some f.injection_details else none
    test_details :=
      if f.intervention_type == JsVal.str "test" then some f.test_details else none
    treatment_details :=
      if f.intervention_type == JsVal.str "treatment" then some f.treatment_details else none
    procedure_details :=
      if f.intervention_type == JsVal.str "procedure" then some f.procedure_details else none
    verified_patient_identity := f.verified_patient_identity
    donned_proper_ppe := f.donned_proper_ppe
    notes := f.notes }

/-- C4: for a draft of one of the four intervention types that passes
validation, the submitted record carries the detail sub-record matching
`intervention_type` populated with the draft's contents and the other three
as explicit nulls, whatever data the draft held in them; exactly one detail
sub-record is non-null. -/
theorem submitData_one_detail (f : InterventionForm)
    (htype : f.intervention_type = JsVal.str "injection" ∨
      f.intervention_type = JsVal.str "test" ∨
      f.intervention_type = JsVal.str "treatment" ∨
      f.intervention_type = JsVal.str "procedure")
    (_hvalid : validateForm f = none) :
    ((f.intervention_type = JsVal.str "injection" →
        (submitData f).injection_details = some f.injection_details ∧
        (submitData f).test_details = none ∧
        (submitData f).treatment_details = none ∧
        (submitData f).procedure_details = none) ∧
      (f.intervention_type = JsVal.str "test" →
        (submitData f).test_details = some f.test_details ∧
        (submitData f).injection_details = none ∧
        (submitData f).treatment_details = none ∧
        (submitData f).procedure_details = none) ∧
      (f.intervention_type = JsVal.str "treatment" →
        (submitData f).treatment_details = some f.treatment_details ∧
        (submitData f).injection_details = none ∧
        (submitData f).test_details = none ∧
        (submitData f).procedure_details = none) ∧
      (f.intervention_type = JsVal.str "procedure" →
        (submitData f).procedure_details = some f.procedure_details ∧
        (submitData f).injection_details = none ∧
        (submitData f).test_details = none ∧
        (submitData f).treatment_details = none)) ∧
    [(submitData f).injection_details.isSome, (submitData f).test_details.isSome,
      (submitData f).treatment_details.isSome,
      (submitData f).procedure_details.isSome].count true = 1 := by
  rcases htype with h | h | h | h <;> simp [submitData, h, List.count_cons]

/-- Passing injection draft used as the C4 witness: the intervention type is
`injection` while `test_details` holds data left over in the draft. -/
def validInjectionDraft : InterventionForm :=
  { initialInterventionData "p1" "2024-01-05" with
    location := .str "home"
    verified_patient_identity := .b true
    donned_proper_ppe := .b true
    injection_details :=
      { (initialInterventionData "p1" "2024-01-05").injection_details with
        verified_no_allergic_reaction := .b true
        cleaned_injection_site := .b true
        adhered_8_rights := .b true }
    test_details :=
      { test_type := .str "blood", test_other := .str "", tb_placement_site := .str "",
        tb_arm := .str "", result := .str "positive", notes := .str "leftover" } }

/-- Witness for C4 at the concrete passing injection draft. -/
theorem submitData_one_detail_witness :
    (submitData validInjectionDraft).test_details = none ∧
    [(submitData validInjectionDraft).injection_details.isSome,
      (submitData validInjectionDraft).test_details.isSome,
      (submitData validInjectionDraft).treatment_details.isSome,
      (submitData validInjectionDraft).procedure_details.isSome].count true = 1 := by
  have h := submitData_one_detail validInjectionDraft (Or.inl rfl) (by decide)
  exact ⟨(h.1.1 rfl).2.1, h.2⟩

/-! ## Unable-to-contact form model (RegisterPage.js, UnableToContactPage) -/

/-- Unable-to-contact draft state (`formData` in UnableToContactPage). -/
structure UnableToContactForm where
  patient_id : JsVal
  visit_type : JsVal
  attempt_date : JsVal
  attempt_time : JsVal
  attempt_location : JsVal
  attempt_location_other : JsVal
  spoke_with_anyone : JsVal
  spoke_with_whom : JsVal
  individual_location : JsVal
  individual_location_other : JsVal
  expected_return_date : JsVal
  admission_date : JsVal
  admission_reason : JsVal
  additional_info : JsVal
deriving DecidableEq, Repr

/-- The initial `formData` literal of UnableToContactPage. -/
def initialUnableToContactData (patientId visitType today nowTime : String) :
    UnableToContactForm :=
  { patient_id := .str patientId
    visit_type := .str visitType
    attempt_date := .str today
    attempt_time := .str nowTime
    attempt_location := .str ""
    attempt_location_other := .str ""
    spoke_with_anyone := .b false
    spoke_with_whom := .str ""
    individual_location := .str ""
    individual_location_other := .str ""
    expected_return_date := .str ""
    admission_date := .str ""
    admission_reason := .str ""
    additional_info := .str "" }

/-- Embedding of UnableToContactPage's `handleSubmit` (lines 258-280): two
validation checks in order, then the draft itself is sent unchanged to
`unableToContactAPI.create`. `Except.error` is the toast message of the first
failing check; `Except.ok` carries the payload sent to the backend. -/
def ucHandleSubmit (f : UnableToContactForm) : Except String UnableToContactForm :=
  if !f.attempt_location.truthy then
    .error "Please select where you attempted to contact"
  else if !f.individual_location.truthy then
    .error "Please select where the individual is"
  else .ok f

/-- Draft with `attempt_location = "other"` and no free-text: passes. -/
def ucDraftOtherNoText : UnableToContactForm :=
  { initialUnableToContactData "p1" "nurse_visit" "2024-01-05" "09:30" with
    attempt_location := .str "other"
    individual_location := .str "vacation" }

/-- Draft with `individual_location = "admitted"` and empty admission date and
reason: passes. -/
def ucDraftAdmittedNoDetails : UnableToContactForm :=
  { initialUnableToContactData "p1" "nurse_visit" "2024-01-05" "09:30" with
    attempt_location := .str "home"
    individual_location := .str "admitted" }

/-- C5: unable-to-contact validation checks exactly `attempt_location` then
`individual_location` and nothing else: submission succeeds iff both are set,
each failure reports the corresponding first message, and the two permissive
drafts (location "other" with no free-text; "admitted" with no admission
details) pass and are submitted. -/
theorem ucHandleSubmit_two_rules (f : UnableToContactForm) :
    ((ucHandleSubmit f).isOk =
      (f.attempt_location.truthy && f.individual_location.truthy)) ∧
    (ucHandleSubmit f = .error "Please select where you attempted to contact" ↔
      f.attempt_location.truthy = false) ∧
    (ucHandleSubmit f = .error "Please select where the individual is" ↔
      (f.attempt_location.truthy = true ∧ f.individual_location.truthy = false)) ∧
    ucHandleSubmit ucDraftOtherNoText = .ok ucDraftOtherNoText ∧
    ucHandleSubmit ucDraftAdmittedNoDetails = .ok ucDraftAdmittedNoDetails := by
  refine ⟨?_, ?_, ?_, rfl, rfl⟩ <;>
    cases h1 : f.attempt_location.truthy <;>
      cases h2 : f.individual_location.truthy <;>
        simp [ucHandleSubmit, h1, h2, Except.isOk, Except.toBool]

/-- C10: whenever unable-to-contact validation passes, the payload sent to the
create endpoint is the draft unchanged — in particular the conditionally
displayed fields `expected_return_date`, `admission_date` and
`admission_reason` are transmitted with whatever values they held. -/
theorem ucHandleSubmit_payload_unchanged (f g : UnableToContactForm)
    (h : ucHandleSubmit f = .ok g) :
    g.expected_return_date = f.expected_return_date ∧
    g.admission_date = f.admission_date ∧
    g.admission_reason = f.admission_reason ∧
    g = f := by
  have hg : g = f := by
    unfold ucHandleSubmit at h
    cases h1 : f.attempt_location.truthy <;> rw [h1] at h <;> simp at h
    cases h2 : f.individual_location.truthy <;> rw [h2] at h <;> simp at h
    exact h.symm
  subst hg
  exact ⟨rfl, rfl, rfl, rfl⟩

/-- Draft whose `individual_location` makes the admission fields inapplicable
while they still hold data. -/
def ucDraftStaleFields : UnableToContactForm :=
  { initialUnableToContactData "p1" "nurse_visit" "2024-01-05" "09:30" with
    attempt_location := .str "home"
    individual_location := .str "moved_permanently"
    expected_return_date := .str "2024-02-01"
    admission_date := .str "2024-01-02"
    admission_reason := .str "fall" }

/-- Witness for C10: the concrete stale draft passes validation and its
payload still carries the inapplicable admission date. -/
theorem ucHandleSubmit_payload_unchanged_witness :
    ucHandleSubmit ucDraftStaleFields = .ok ucDraftStaleFields ∧
    ucDraftStaleFields.admission_date = JsVal.str "2024-01-02" :=
  ⟨rfl, (ucHandleSubmit_payload_unchanged ucDraftStaleFields ucDraftStaleFields
    rfl).2.1.trans rfl⟩

/-! ## Host-language helpers used by the report renderer -/

/-- English month abbreviation as printed by `toLocaleDateString('en-US')`. -/
def monthAbbrev : Nat → String
  | 1 => "Jan" | 2 => "Feb" | 3 => "Mar" | 4 => "Apr" | 5 => "May" | 6 => "Jun"
  | 7 => "Jul" | 8 => "Aug" | 9 => "Sep" | 10 => "Oct" | 11 => "Nov" | _ => "Dec"

/-- Model of `new Date(s).toLocaleDateString('en-US', {year,month,day})` for an
ISO `YYYY-MM-DD` string, with the runtime's locale fixed to en-US and its time
zone to UTC; any other shape renders as JavaScript's "Invalid Date". -/
def jsLocaleDate (s : String) : String :=
  match s.splitOn "-" with
  | [ys, ms, ds] =>
      match ys.toNat?, ms.toNat?, ds.toNat? with
      | some y, some m, some d =>
          if 1 ≤ m ∧ m ≤ 12 ∧ 1 ≤ d ∧ d ≤ 31 then
            monthAbbrev m ++ " " ++ intToStr d ++ ", " ++ intToStr y
          else "Invalid Date"
      | _, _, _ => "Invalid Date"
  | _ => "Invalid Date"

/-- Embedding of `formatDate` from utils.js: falsy input renders as "N/A",
otherwise the en-US short date. -/
def formatDate (v : JsVal) : String :=
  if !v.truthy then "N/A" else jsLocaleDate v.toStr

/-- Embedding of `formatDateTime` from utils.js: like `formatDate` plus the
hour/minute of the parsed instant (midnight UTC for a date-only ISO string). -/
def formatDateTime (v : JsVal) : String :=
  if !v.truthy then "N/A" else jsLocaleDate v.toStr ++ ", 12:00 AM"

/-- Model of `replace(/\s+/g, '_')`: each maximal run of whitespace becomes a
single underscore. -/
def wsCollapseAux : List Char → Bool → List Char
  | [], _ => []
  | c :: r, inWs =>
      if isJsWhitespace c then
        if inWs then wsCollapseAux r true else '_' :: wsCollapseAux r true
      else c :: wsCollapseAux r false

/-- Collapse whitespace runs of a string to single underscores. -/
def wsCollapse (s : String) : String :=
  (wsCollapseAux s.toList false).asString

/-! ## Report renderer (VisitDetailPage.js, generatePDF) -/

/-- Patient `permanent_info` fields consumed by the report. -/
structure PermanentInfo where
  date_of_birth : JsVal
  gender : JsVal
  home_address : JsVal
deriving DecidableEq, Repr

/-- Patient record as consumed by the report renderer. -/
structure Patient where
  full_name : String
  permanent_info : PermanentInfo
deriving DecidableEq, Repr

/-- One emitted element of the rendered document body, in emission order. -/
inductive PdfItem where
  | header (text : String)
  | title (text : String)
  | section (text : String)
  | field (label : String) (value : String) (lines : List String)
  | notes (lines : List String)
deriving DecidableEq, Repr

/-- Running layout state of the jsPDF document: vertical cursor `y`, page
count, and the emitted body items in reverse order. -/
structure PdfDoc where
  y : Int
  pages : Nat
  rev : List PdfItem
deriving DecidableEq, Repr

/-- Text-wrapping callback standing for jsPDF's font-metric
`splitTextToSize`; the renderer is verified for every such function. -/
def SplitFn : Type := String → Int → List String

/-- Default A4 portrait page width in jsPDF units (mm). -/
def pageWidth : Int := 210

/-- Left/right margin of the report. -/
def pdfMargin : Int := 20

/-- Line height of the report. -/
def lineHeight : Int := 7

/-- Append one body item and advance the cursor. -/
def emit (it : PdfItem) (dy : Int) (d : PdfDoc) : PdfDoc :=
  { d with rev := it :: d.rev, y := d.y + dy }

/-- Page-break check: past the limit, start a new page and reset the cursor. -/
def pageBreak (limit : Int) (d : PdfDoc) : PdfDoc :=
  if d.y > limit then { d with pages := d.pages + 1, y := 20 } else d

/-- The `y += 5` gap emitted after each section. -/
def bump (d : PdfDoc) : PdfDoc := { d with y := d.y + 5 }

/-- Embedding of the `addTitle` helper (no page-break check in the source). -/
def addTitle (t : String) (d : PdfDoc) : PdfDoc :=
  emit (.title t) (lineHeight + 2) d

/-- Embedding of the `addSectionTitle` helper (page break past y = 260). -/
def addSectionTitle (t : String) (d : PdfDoc) : PdfDoc :=
  emit (.section t) lineHeight (pageBreak 260 d)

/-- The `value || 'N/A'` defaulting inside `addField`. -/
def fieldText (v : JsVal) : String :=
  if v.truthy then v.toStr else "N/A"

/-- Embedding of the `addField` helper (page break past y = 270; the value is
wrapped to the field width and the cursor advances one line height per wrapped
line, at least one). -/
def addField (split : SplitFn) (label : String) (v : JsVal) (d : PdfDoc) : PdfDoc :=
  let d1 := pageBreak 270 d
  let vt := fieldText v
  let ls := split vt (pageWidth - pdfMargin * 2 - 40)
  emit (.field label vt ls) (lineHeight * (max 1 ls.length : Int)) d1

@[simp] theorem emit_rev (it : PdfItem) (dy : Int) (d : PdfDoc) :
    (emit it dy d).rev = it :: d.rev := rfl

@[simp] theorem pageBreak_rev (limit : Int) (d : PdfDoc) :
    (pageBreak limit d).rev = d.rev := by
  unfold pageBreak
  split <;> rfl

@[simp] theorem bump_rev (d : PdfDoc) : (bump d).rev = d.rev := rfl

@[simp] theorem addTitle_rev (t : String) (d : PdfDoc) :
    (addTitle t d).rev = .title t :: d.rev := rfl

@[simp] theorem addSectionTitle_rev (t : String) (d : PdfDoc) :
    (addSectionTitle t d).rev = .section t :: d.rev := by
  unfold addSectionTitle
  rw [emit_rev, pageBreak_rev]

@[simp] theorem addField_rev (split : SplitFn) (label : String) (v : JsVal) (d : PdfDoc) :
    (addField split label v d).rev =
      .field label (fieldText v) (split (fieldText v) (pageWidth - pdfMargin * 2 - 40))
        :: d.rev := by
  unfold addField
  rw [emit_rev, pageBreak_rev]

/-- Body of the report in emission order, following the source line by line:
header, patient information, visit information, vital signs (Repeat BP only
when a repeat systolic value is present), physical assessment, head-to-toe,
gastrointestinal, genito-urinary, respiratory, endocrine only when diabetic,
changes since last visit, nurse notes only when non-empty. -/
def renderBody (p : Patient) (v : VisitData) (split : SplitFn) : PdfDoc :=
  let d : PdfDoc := { y := 20, pages := 1, rev := [] }
  let d := emit (.header "MedRounds") 0 d
  let d := emit (.header "Home Nurse Visit Report") 20 d
  let d := addTitle "Patient Information" d
  let d := addField split "Name" (.str p.full_name) d
  let d := addField split "Date of Birth" (.str (formatDate p.permanent_info.date_of_birth)) d
  let d := addField split "Gender" p.permanent_info.gender d
  let d := addField split "Address" p.permanent_info.home_address d
  let d := bump d
  let d := addSectionTitle "Visit Information" d
  let d := addField split "Visit Date" (.str (formatDateTime v.visit_date)) d
  let d := addField split "Health Status" v.overall_health_status d
  let d := bump d
  let d := addSectionTitle "Vital Signs" d
  let d := addField split "Weight"
    (if v.vital_signs.weight.truthy then .str (v.vital_signs.weight.toStr ++ " lbs")
     else .null) d
  let d := addField split "Temperature"
    (if v.vital_signs.body_temperature.truthy then
      .str (v.vital_signs.body_temperature.toStr ++ "°F")
     else .null) d
  let d := addField split "Blood Pressure"
    (if v.vital_signs.blood_pressure_systolic.truthy then
      .str (v.vital_signs.blood_pressure_systolic.toStr ++ "/" ++
        v.vital_signs.blood_pressure_diastolic.toStr ++ " mmHg")
     else .null) d
  let d := if v.vital_signs.repeat_blood_pressure_systolic.truthy then
      addField split "Repeat BP"
        (.str (v.vital_signs.repeat_blood_pressure_systolic.toStr ++ "/" ++
          v.vital_signs.repeat_blood_pressure_diastolic.toStr ++ " mmHg")) d
    else d
  let d := addField split "SpO2"
    (if v.vital_signs.pulse_oximeter.truthy then
      .str (v.vital_signs.pulse_oximeter.toStr ++ "%")
     else .null) d
  let d := addField split "Pulse"
    (if v.vital_signs.pulse.truthy then .str (v.vital_signs.pulse.toStr ++ " bpm")
     else .null) d
  let d := addField split "Respirations"
    (if v.vital_signs.respirations.truthy then
      .str (v.vital_signs.respirations.toStr ++ "/min")
     else .null) d
  let d := bump d
  let d := addSectionTitle "Physical Assessment" d
  let d := addField split "General Appearance" v.physical_assessment.general_appearance d
  let d := addField split "Skin Assessment" v.physical_assessment.skin_assessment d
  let d := addField split "Mobility Level" v.physical_assessment.mobility_level d
  let d := addField split "Speech Level" v.physical_assessment.speech_level d
  let d := addField split "Alert & Oriented" v.physical_assessment.alert_oriented_level d
  let d := bump d
  let d := addSectionTitle "Head to Toe Assessment" d
  let d := addField split "Head & Neck" v.head_to_toe.head_neck d
  let d := addField split "Eyes/Vision" v.head_to_toe.eyes_vision d
  let d := addField split "Ears/Hearing" v.head_to_toe.ears_hearing d
  let d := addField split "Nose/Nasal" v.head_to_toe.nose_nasal_cavity d
  let d := addField split "Mouth/Oral" v.head_to_toe.mouth_teeth_oral_cavity d
  let d := bump d
  let d := addSectionTitle "Gastrointestinal Assessment" d
  let d := addField split "Last Bowel Movement"
    (.str (formatDate v.gastrointestinal.last_bowel_movement)) d
  let d := addField split "Bowel Sounds" v.gastrointestinal.bowel_sounds d
  let d := addField split "Diet Type" v.gastrointestinal.nutritional_diet d
  let d := bump d
  let d := addSectionTitle "Genito-Urinary Assessment" d
  let d := addField split "Toileting Level" v.genito_urinary.toileting_level d
  let d := bump d
  let d := addSectionTitle "Respiratory Assessment" d
  let d := addField split "Lung Sounds" v.respiratory.lung_sounds d
  let d := addField split "Oxygen Type" v.respiratory.oxygen_type d
  let d := bump d
  let d := if v.endocrine.is_diabetic.truthy then
      bump (addField split "Notes" v.endocrine.diabetic_notes
        (addField split "Blood Sugar"
          (if v.endocrine.blood_sugar.truthy then
            .str (v.endocrine.blood_sugar.toStr ++ " mg/dL")
           else .null)
          (addField split "Diabetic" (.str "Yes")
            (addSectionTitle "Endocrine Assessment" d))))
    else d
  let d := addSectionTitle "Changes Since Last Visit" d
  let d := addField split "Medication Changes" v.changes_since_last.medication_changes d
  let d := addField split "Diagnosis Changes" v.changes_since_last.diagnosis_changes d
  let d := addField split "ER/Urgent Care" v.changes_since_last.er_urgent_care_visits d
  let d := addField split "Upcoming Appointments" v.changes_since_last.upcoming_appointments d
  let d := bump d
  let d := if v.nurse_notes.truthy then
      emit (.notes (split v.nurse_notes.toStr (pageWidth - pdfMargin * 2))) 0
        (addSectionTitle "Nurse Notes" d)
    else d
  d

/-- Rendered report: body items in order, page count, per-page footers, and
the download filename. Only the footers depend on the render-time clock. -/
structure Pdf where
  body : List PdfItem
  pageCount : Nat
  footer : List (Nat × String × String)
  fileName : String
deriving DecidableEq, Repr

/-- Embedding of `generatePDF` from VisitDetailPage.js: lay out the body, then
stamp every page with `Page i of N` and a generation timestamp, and save under
`visit_<name with whitespace collapsed>_<formatted visit date>.pdf`. -/
def generatePDF (p : Patient) (v : VisitData) (split : SplitFn) (now : String) : Pdf :=
  let d := renderBody p v split
  { body := d.rev.reverse
    pageCount := d.pages
    footer := (List.range d.pages).map fun i =>
      (i + 1, "Page " ++ intToStr (i + 1) ++ " of " ++ intToStr d.pages,
        "Generated: " ++ now)
    fileName := "visit_" ++ wsCollapse p.full_name ++ "_" ++ formatDate v.visit_date ++ ".pdf" }

/-- Section and title headings of a body, in order. -/
def headersOf (items : List PdfItem) : List String :=
  items.filterMap fun it =>
    match it with
    | .header t => some t
    | .title t => some t
    | .section t => some t
    | _ => none

/-- Labels of the emitted field lines, in order. -/
def fieldLabelsOf (items : List PdfItem) : List String :=
  items.filterMap fun it =>
    match it with
    | .field label _ _ => some label
    | _ => none

/-- Rendered values of the emitted field lines, in order. -/
def fieldValuesOf (items : List PdfItem) : List String :=
  items.filterMap fun it =>
    match it with
    | .field _ value _ => some value
    | _ => none

/-- Boolean check that a body item is not a field with an empty value. -/
def fieldValueNonEmpty : PdfItem → Bool
  | .field _ value _ => value != ""
  | _ => true

/-- A truthy value never renders as the empty string. -/
theorem truthy_toStr_ne_empty (v : JsVal) (h : v.truthy = true) : v.toStr ≠ "" := by
  cases v with
  | null => simp at h
  | b bv =>
      cases bv
      · simp at h
      · decide
  | num n => exact intToStr_ne_empty n
  | str s => simpa using h

/-- The rendered text of a field value is never empty: missing values become
the literal "N/A". -/
theorem fieldText_ne_empty (v : JsVal) : fieldText v ≠ "" := by
  unfold fieldText
  by_cases h : v.truthy = true
  · simp only [h, if_true]
    exact truthy_toStr_ne_empty v h
  · simp only [Bool.not_eq_true] at h
    simp [h]

@[simp] theorem fieldText_bne_empty (v : JsVal) : (fieldText v != "") = true := by
  simpa [bne_iff_ne] using fieldText_ne_empty v

/-- Trivial wrapping callback used for concrete renders: no wrapping. -/
def splitOne : SplitFn := fun s _ => [s]

/-- Patient with no recorded data, used for concrete renders. -/
def emptyPatient : Patient :=
  { full_name := ""
    permanent_info := { date_of_birth := .null, gender := .null, home_address := .null } }

/-- Fresh visit whose only datum is a repeat systolic reading. -/
def repeatBpVisit : VisitData :=
  updateVitalSign .repeat_blood_pressure_systolic (.str "130") (initialVisitData "")

/-- C6 is false as stated: the "Repeat BP" field is a report field (it is
emitted when a repeat systolic value is present), yet for a visit whose repeat
blood pressure is missing the field is omitted entirely instead of being
rendered as "N/A". -/
theorem generatePDF_na_omitted_counterexample :
    "Repeat BP" ∈ fieldLabelsOf (generatePDF emptyPatient repeatBpVisit splitOne "t").body ∧
    "Repeat BP" ∉
      fieldLabelsOf (generatePDF emptyPatient (initialVisitData "") splitOne "t").body := by
  constructor <;> decide

/-- C6 amended: the rendered report emits headings in the fixed order with
Endocrine iff `is_diabetic` is truthy and Nurse Notes iff `nurse_notes` is
non-empty; the field lines of the emitted sections are a fixed list except
that "Repeat BP" appears only when a repeat systolic value is present; no
field is ever emitted with an empty value (missing values render as "N/A"),
and on a fully empty visit every emitted field value is exactly "N/A". -/
theorem generatePDF_layout (p : Patient) (v : VisitData) (split : SplitFn) (now : String) :
    (headersOf (generatePDF p v split now).body =
      ["MedRounds", "Home Nurse Visit Report", "Patient Information", "Visit Information",
        "Vital Signs", "Physical Assessment", "Head to Toe Assessment",
        "Gastrointestinal Assessment", "Genito-Urinary Assessment",
        "Respiratory Assessment"] ++
      (if v.endocrine.is_diabetic.truthy then ["Endocrine Assessment"] else []) ++
      ["Changes Since Last Visit"] ++
      (if v.nurse_notes.truthy then ["Nurse Notes"] else [])) ∧
    (fieldLabelsOf (generatePDF p v split now).body =
      ["Name", "Date of Birth", "Gender", "Address", "Visit Date", "Health Status",
        "Weight", "Temperature", "Blood Pressure"] ++
      (if v.vital_signs.repeat_blood_pressure_systolic.truthy then ["Repeat BP"] else []) ++
      ["SpO2", "Pulse", "Respirations", "General Appearance", "Skin Assessment",
        "Mobility Level", "Speech Level", "Alert & Oriented", "Head & Neck", "Eyes/Vision",
        "Ears/Hearing", "Nose/Nasal", "Mouth/Oral", "Last Bowel Movement", "Bowel Sounds",
        "Diet Type", "Toileting Level", "Lung Sounds", "Oxygen Type"] ++
      (if v.endocrine.is_diabetic.truthy then ["Diabetic", "Blood Sugar", "Notes"] else []) ++
      ["Medication Changes", "Diagnosis Changes", "ER/Urgent Care",
        "Upcoming Appointments"]) ∧
    (generatePDF p v split now).body.all fieldValueNonEmpty = true ∧
    (fieldValuesOf (generatePDF emptyPatient (initialVisitData "") splitOne "t").body).all
      (fun s => s == "N/A") = true := by
  refine ⟨?_, ?_, ?_, by decide⟩ <;>
    by_cases hdia : v.endocrine.is_diabetic.truthy <;>
      by_cases hnn : v.nurse_notes.truthy <;>
        by_cases hrbp : v.vital_signs.repeat_blood_pressure_systolic.truthy <;>
          simp [generatePDF, renderBody, headersOf, fieldLabelsOf, fieldValueNonEmpty,
            hdia, hnn, hrbp]

/-- C7: the body items and the filename do not depend on the render-time
clock (only the footer timestamp does), so rendering the same (Patient,
Visit) pair twice yields identical section content and the same filename, and
the filename follows `visit_<name>_<date>.pdf` with whitespace in the name
collapsed to underscores and the visit date formatted. -/
theorem generatePDF_deterministic (p : Patient) (v : VisitData) (split : SplitFn)
    (now1 now2 : String) :
    (generatePDF p v split now1).body = (generatePDF p v split now2).body ∧
    (generatePDF p v split now1).fileName = (generatePDF p v split now2).fileName ∧
    (generatePDF p v split now1).fileName =
      "visit_" ++ wsCollapse p.full_name ++ "_" ++ formatDate v.visit_date ++ ".pdf" :=
  ⟨rfl, rfl, rfl⟩

/-- C9: the field emitter renders every falsy value — null, the empty string,
and also the number 0 — as "N/A", so a recorded vital of 0 (weight 0, blood
sugar 0) produces a report indistinguishable from one with the value
missing. -/
theorem addField_falsy_na :
    (∀ (v : JsVal), v.truthy = false →
      ∀ (split : SplitFn) (label : String) (d : PdfDoc),
        addField split label v d = addField split label .null d) ∧
    JsVal.truthy (.num 0) = false ∧
    JsVal.truthy .null = false ∧
    JsVal.truthy (.str "") = false ∧
    (∀ (p : Patient) (v : VisitData) (split : SplitFn) (now : String),
      generatePDF p { v with vital_signs := { v.vital_signs with weight := .num 0 } }
          split now =
        generatePDF p { v with vital_signs := { v.vital_signs with weight := .null } }
          split now) ∧
    (∀ (p : Patient) (v : VisitData) (split : SplitFn) (now : String),
      generatePDF p { v with endocrine := { v.endocrine with blood_sugar := .num 0 } }
          split now =
        generatePDF p { v with endocrine := { v.endocrine with blood_sugar := .null } }
          split now) := by
  refine ⟨?_, rfl, rfl, rfl, fun p v split now => rfl, fun p v split now => rfl⟩
  intro v h split label d
  simp [addField, fieldText, h]

/-! ## Per-field update frame conditions (C8) -/

/-- Top-level scalar fields reachable through InterventionPage's
`updateField`. -/
inductive ITopField where
  | patient_id | intervention_date | location | body_temperature | mood_scale
  | intervention_type | notes
deriving DecidableEq, Repr

/-- Field names of `injection_details`. -/
inductive InjField where
  | is_vaccination | vaccination_type | vaccination_other
  | non_vaccination_type | non_vaccination_other
  | dose | route | site
  | verified_no_allergic_reaction | cleaned_injection_site | adhered_8_rights
deriving DecidableEq, Repr

/-- Field names of `test_details`. -/
inductive TestField where
  | test_type | test_other | tb_placement_site | tb_arm | result | notes
deriving DecidableEq, Repr

/-- Field names of `treatment_details`. -/
inductive TreatField where
  | treatment_type | treatment_other | notes
deriving DecidableEq, Repr

/-- Field names of `procedure_details`. -/
inductive ProcField where
  | procedure_type | procedure_other | body_site | suture_count | ear_side | notes
deriving DecidableEq, Repr

/-- Read a top-level scalar of the intervention draft by name. -/
def InterventionForm.getTop (f : InterventionForm) : ITopField → JsVal
  | .patient_id => f.patient_id
  | .intervention_date => f.intervention_date
  | .location => f.location
  | .body_temperature => f.body_temperature
  | .mood_scale => f.mood_scale
  | .intervention_type => f.intervention_type
  | .notes => f.notes

/-- Embedding of `updateField` from InterventionPage: spread update of one
top-level scalar. -/
def updateField (field : ITopField) (value : JsVal) (f : InterventionForm) : InterventionForm :=
  match field with
  | .patient_id => { f with patient_id := value }
  | .intervention_date => { f with intervention_date := value }
  | .location => { f with location := value }
  | .body_temperature => { f with body_temperature := value }
  | .mood_scale => { f with mood_scale := value }
  | .intervention_type => { f with intervention_type := value }
  | .notes => { f with notes := value }

/-- Read a field of `injection_details` by name. -/
def InjectionDetails.get (s : InjectionDetails) : InjField → JsVal
  | .is_vaccination => s.is_vaccination
  | .vaccination_type => s.vaccination_type
  | .vaccination_other => s.vaccination_other
  | .non_vaccination_type => s.non_vaccination_type
  | .non_vaccination_other => s.non_vaccination_other
  | .dose => s.dose
  | .route => s.route
  | .site => s.site
  | .verified_no_allergic_reaction => s.verified_no_allergic_reaction
  | .cleaned_injection_site => s.cleaned_injection_site
  | .adhered_8_rights => s.adhered_8_rights

/-- Spread update of `injection_details`. -/
def InjectionDetails.set (s : InjectionDetails) : InjField → JsVal → InjectionDetails
  | .is_vaccination, v => { s with is_vaccination := v }
  | .vaccination_type, v => { s with vaccination_type := v }
  | .vaccination_other, v => { s with vaccination_other := v }
  | .non_vaccination_type, v => { s with non_vaccination_type := v }
  | .non_vaccination_other, v => { s with non_vaccination_other := v }
  | .dose, v => { s with dose := v }
  | .route, v => { s with route := v }
  | .site, v => { s with site := v }
  | .verified_no_allergic_reaction, v => { s with verified_no_allergic_reaction := v }
  | .cleaned_injection_site, v => { s with cleaned_injection_site := v }
  | .adhered_8_rights, v => { s with adhered_8_rights := v }

/-- Read a field of `test_details` by name. -/
def TestDetails.get (s : TestDetails) : TestField → JsVal
  | .test_type => s.test_type
  | .test_other => s.test_other
  | .tb_placement_site => s.tb_placement_site
  | .tb_arm => s.tb_arm
  | .result => s.result
  | .notes => s.notes

/-- Spread update of `test_details`. -/
def TestDetails.set (s : TestDetails) : TestField → JsVal → TestDetails
  | .test_type, v => { s with test_type := v }
  | .test_other, v => { s with test_other := v }
  | .tb_placement_site, v => { s with tb_placement_site := v }
  | .tb_arm, v => { s with tb_arm := v }
  | .result, v => { s with result := v }
  | .notes, v => { s with notes := v }

/-- Read a field of `treatment_details` by name. -/
def TreatmentDetails.get (s : TreatmentDetails) : TreatField → JsVal
  | .treatment_type => s.treatment_type
  | .treatment_other => s.treatment_other
  | .notes => s.notes

/-- Spread update of `treatment_details`. -/
def TreatmentDetails.set (s : TreatmentDetails) : TreatField → JsVal → TreatmentDetails
  | .treatment_type, v => { s with treatment_type := v }
  | .treatment_other, v => { s with treatment_other := v }
  | .notes, v => { s with notes := v }

/-- Read a field of `procedure_details` by name. -/
def ProcedureDetails.get (s : ProcedureDetails) : ProcField → JsVal
  | .procedure_type => s.procedure_type
  | .procedure_other => s.procedure_other
  | .body_site => s.body_site
  | .suture_count => s.suture_count
  | .ear_side => s.ear_side
  | .notes => s.notes

/-- Spread update of `procedure_details`. -/
def ProcedureDetails.set (s : ProcedureDetails) : ProcField → JsVal → ProcedureDetails
  | .procedure_type, v => { s with procedure_type := v }
  | .procedure_other, v => { s with procedure_other := v }
  | .body_site, v => { s with body_site := v }
  | .suture_count, v => { s with suture_count := v }
  | .ear_side, v => { s with ear_side := v }
  | .notes, v => { s with notes := v }

/-- Embedding of `updateInjection` from InterventionPage. -/
def updateInjection (field : InjField) (value : JsVal) (f : InterventionForm) :
    InterventionForm :=
  { f with injection_details := f.injection_details.set field value }

/-- Embedding of `updateTest` from InterventionPage. -/
def updateTest (field : TestField) (value : JsVal) (f : InterventionForm) : InterventionForm :=
  { f with test_details := f.test_details.set field value }

/-- Embedding of `updateTreatment` from InterventionPage. -/
def updateTreatment (field : TreatField) (value : JsVal) (f : InterventionForm) :
    InterventionForm :=
  { f with treatment_details := f.treatment_details.set field value }

/-- Embedding of `updateProcedure` from InterventionPage. -/
def updateProcedure (field : ProcField) (value : JsVal) (f : InterventionForm) :
    InterventionForm :=
  { f with procedure_details := f.procedure_details.set field value }

theorem vitalSigns_get_set (s : VitalSigns) (f g : VitalField) (v : JsVal) :
    (s.set f v).get g = if f = g then v else s.get g := by
  cases f <;> cases g <;> simp [VitalSigns.set, VitalSigns.get]

theorem physicalAssessment_get_set (s : PhysicalAssessment) (f g : PhysField) (v : JsVal) :
    (s.set f v).get g = if f = g then v else s.get g := by
  cases f <;> cases g <;> simp [PhysicalAssessment.set, PhysicalAssessment.get]

theorem headToToe_get_set (s : HeadToToe) (f g : H2TField) (v : JsVal) :
    (s.set f v).get g = if f = g then v else s.get g := by
  cases f <;> cases g <;> simp [HeadToToe.set, HeadToToe.get]

theorem gastrointestinal_get_set (s : Gastrointestinal) (f g : GIField) (v : JsVal) :
    (s.set f v).get g = if f = g then v else s.get g := by
  cases f <;> cases g <;> simp [Gastrointestinal.set, Gastrointestinal.get]

theorem genitoUrinary_get_set (s : GenitoUrinary) (f g : GUField) (v : JsVal) :
    (s.set f v).get g = if f = g then v else s.get g := by
  cases f <;> cases g <;> simp [GenitoUrinary.set, GenitoUrinary.get]

theorem respiratory_get_set (s : Respiratory) (f g : RespField) (v : JsVal) :
    (s.set f v).get g = if f = g then v else s.get g := by
  cases f <;> cases g <;> simp [Respiratory.set, Respiratory.get]

theorem endocrine_get_set (s : Endocrine) (f g : EndoField) (v : JsVal) :
    (s.set f v).get g = if f = g then v else s.get g := by
  cases f <;> cases g <;> simp [Endocrine.set, Endocrine.get]

theorem changesSinceLast_get_set (s : ChangesSinceLast) (f g : ChangesField) (v : JsVal) :
    (s.set f v).get g = if f = g then v else s.get g := by
  cases f <;> cases g <;> simp [ChangesSinceLast.set, ChangesSinceLast.get]

theorem InterventionForm.getTop_updateField (s : InterventionForm) (f g : ITopField)
    (v : JsVal) : (updateField f v s).getTop g = if f = g then v else s.getTop g := by
  cases f <;> cases g <;> simp [updateField, InterventionForm.getTop]

theorem injectionDetails_get_set (s : InjectionDetails) (f g : InjField) (v : JsVal) :
    (s.set f v).get g = if f = g then v else s.get g := by
  cases f <;> cases g <;> simp [InjectionDetails.set, InjectionDetails.get]

theorem testDetails_get_set (s : TestDetails) (f g : TestField) (v : JsVal) :
    (s.set f v).get g = if f = g then v else s.get g := by
  cases f <;> cases g <;> simp [TestDetails.set, TestDetails.get]

theorem treatmentDetails_get_set (s : TreatmentDetails) (f g : TreatField) (v : JsVal) :
    (s.set f v).get g = if f = g then v else s.get g := by
  cases f <;> cases g <;> simp [TreatmentDetails.set, TreatmentDetails.get]

theorem procedureDetails_get_set (s : ProcedureDetails) (f g : ProcField) (v : JsVal) :
    (s.set f v).get g = if f = g then v else s.get g := by
  cases f <;> cases g <;> simp [ProcedureDetails.set, ProcedureDetails.get]

/-- Leaf address in the visit form: a top-level scalar or a (section, field)
pair. -/
inductive VisitPath where
  | visit_date
  | overall_health_status
  | nurse_notes
  | vital (f : VitalField)
  | phys (f : PhysField)
  | h2t (f : H2TField)
  | gi (f : GIField)
  | gu (f : GUField)
  | resp (f : RespField)
  | endo (f : EndoField)
  | changes (f : ChangesField)
deriving DecidableEq, Repr

/-- Read the leaf a visit path addresses. -/
def VisitData.getPath (st : VisitData) : VisitPath → JsVal
  | .visit_date => st.visit_date
  | .overall_health_status => st.overall_health_status
  | .nurse_notes => st.nurse_notes
  | .vital f => st.vital_signs.get f
  | .phys f => st.physical_assessment.get f
  | .h2t f => st.head_to_toe.get f
  | .gi f => st.gastrointestinal.get f
  | .gu f => st.genito_urinary.get f
  | .resp f => st.respiratory.get f
  | .endo f => st.endocrine.get f
  | .changes f => st.changes_since_last.get f

/-- Dispatch a leaf write to the updater NewVisitPage binds to that section
(inline `setVisitData` spreads for the three top-level scalars). -/
def VisitData.setPath (st : VisitData) : VisitPath → JsVal → VisitData
  | .visit_date, v => { st with visit_date := v }
  | .overall_health_status, v => { st with overall_health_status := v }
  | .nurse_notes, v => { st with nurse_notes := v }
  | .vital f, v => updateVitalSign f v st
  | .phys f, v => updatePhysicalAssessment f v st
  | .h2t f, v => updateHeadToToe f v st
  | .gi f, v => updateGI f v st
  | .gu f, v => updateGU f v st
  | .resp f, v => updateRespiratory f v st
  | .endo f, v => updateEndocrine f v st
  | .changes f, v => updateChanges f v st

/-- Leaf address in the intervention form: a top-level scalar or a (detail
sub-record, field) pair. -/
inductive InterventionPath where
  | top (f : ITopField)
  | injection (f : InjField)
  | test (f : TestField)
  | treatment (f : TreatField)
  | procedure (f : ProcField)
deriving DecidableEq, Repr

/-- Read the leaf an intervention path addresses. -/
def InterventionForm.getPath (s : InterventionForm) : InterventionPath → JsVal
  | .top f => s.getTop f
  | .injection f => s.injection_details.get f
  | .test f => s.test_details.get f
  | .treatment f => s.treatment_details.get f
  | .procedure f => s.procedure_details.get f

/-- Dispatch a leaf write to the InterventionPage updater for that path. -/
def InterventionForm.setPath (s : InterventionForm) : InterventionPath → JsVal →
    InterventionForm
  | .top f, v => updateField f v s
  | .injection f, v => updateInjection f v s
  | .test f, v => updateTest f v s
  | .treatment f, v => updateTreatment f v s
  | .procedure f, v => updateProcedure f v s

theorem visitSetPath_get_same (st : VisitData) (p : VisitPath) (v : JsVal) :
    (st.setPath p v).getPath p = v := by
  cases p <;>
    simp [VisitData.setPath, VisitData.getPath, updateVitalSign, updatePhysicalAssessment,
      updateHeadToToe, updateGI, updateGU, updateRespiratory, updateEndocrine, updateChanges,
      vitalSigns_get_set, physicalAssessment_get_set, headToToe_get_set,
      gastrointestinal_get_set, genitoUrinary_get_set, respiratory_get_set,
      endocrine_get_set, changesSinceLast_get_set]

theorem visitSetPath_frame (st : VisitData) (p q : VisitPath) (v : JsVal) (h : p ≠ q) :
    (st.setPath p v).getPath q = st.getPath q := by
  cases p <;> cases q <;>
    simp_all [VisitData.setPath, VisitData.getPath, updateVitalSign,
      updatePhysicalAssessment, updateHeadToToe, updateGI, updateGU, updateRespiratory,
      updateEndocrine, updateChanges, vitalSigns_get_set, physicalAssessment_get_set,
      headToToe_get_set, gastrointestinal_get_set, genitoUrinary_get_set,
      respiratory_get_set, endocrine_get_set, changesSinceLast_get_set]

theorem interventionSetPath_get_same (s : InterventionForm) (p : InterventionPath)
    (v : JsVal) : (s.setPath p v).getPath p = v := by
  cases p <;>
    simp [InterventionForm.setPath, InterventionForm.getPath, updateInjection, updateTest,
      updateTreatment, updateProcedure, InterventionForm.getTop_updateField,
      injectionDetails_get_set, testDetails_get_set, treatmentDetails_get_set,
      procedureDetails_get_set]

theorem updateField_injection_details (f : ITopField) (v : JsVal) (s : InterventionForm) :
    (updateField f v s).injection_details = s.injection_details := by
  cases f <;> rfl

theorem updateField_test_details (f : ITopField) (v : JsVal) (s : InterventionForm) :
    (updateField f v s).test_details = s.test_details := by
  cases f <;> rfl

theorem updateField_treatment_details (f : ITopField) (v : JsVal) (s : InterventionForm) :
    (updateField f v s).treatment_details = s.treatment_details := by
  cases f <;> rfl

theorem updateField_procedure_details (f : ITopField) (v : JsVal) (s : InterventionForm) :
    (updateField f v s).procedure_details = s.procedure_details := by
  cases f <;> rfl

theorem updateInjection_getTop (f : InjField) (v : JsVal) (s : InterventionForm)
    (g : ITopField) : (updateInjection f v s).getTop g = s.getTop g := by
  cases g <;> rfl

theorem updateTest_getTop (f : TestField) (v : JsVal) (s : InterventionForm)
    (g : ITopField) : (updateTest f v s).getTop g = s.getTop g := by
  cases g <;> rfl

theorem updateTreatment_getTop (f : TreatField) (v : JsVal) (s : InterventionForm)
    (g : ITopField) : (updateTreatment f v s).getTop g = s.getTop g := by
  cases g <;> rfl

theorem updateProcedure_getTop (f : ProcField) (v : JsVal) (s : InterventionForm)
    (g : ITopField) : (updateProcedure f v s).getTop g = s.getTop g := by
  cases g <;> rfl

theorem updateInjection_proj (f : InjField) (v : JsVal) (s : InterventionForm) :
    (updateInjection f v s).injection_details = s.injection_details.set f v ∧
    (updateInjection f v s).test_details = s.test_details ∧
    (updateInjection f v s).treatment_details = s.treatment_details ∧
    (updateInjection f v s).procedure_details = s.procedure_details :=
  ⟨rfl, rfl, rfl, rfl⟩

theorem updateTest_proj (f : TestField) (v : JsVal) (s : InterventionForm) :
    (updateTest f v s).test_details = s.test_details.set f v ∧
    (updateTest f v s).injection_details = s.injection_details ∧
    (updateTest f v s).treatment_details = s.treatment_details ∧
    (updateTest f v s).procedure_details = s.procedure_details :=
  ⟨rfl, rfl, rfl, rfl⟩

theorem updateTreatment_proj (f : TreatField) (v : JsVal) (s : InterventionForm) :
    (updateTreatment f v s).treatment_details = s.treatment_details.set f v ∧
    (updateTreatment f v s).injection_details = s.injection_details ∧
    (updateTreatment f v s).test_details = s.test_details ∧
    (updateTreatment f v s).procedure_details = s.procedure_details :=
  ⟨rfl, rfl, rfl, rfl⟩

theorem updateProcedure_proj (f : ProcField) (v : JsVal) (s : InterventionForm) :
    (updateProcedure f v s).procedure_details = s.procedure_details.set f v ∧
    (updateProcedure f v s).injection_details = s.injection_details ∧
    (updateProcedure f v s).test_details = s.test_details ∧
    (updateProcedure f v s).treatment_details = s.treatment_details :=
  ⟨rfl, rfl, rfl, rfl⟩

theorem interventionSetPath_frame (s : InterventionForm) (p q : InterventionPath)
    (v : JsVal) (h : p ≠ q) : (s.setPath p v).getPath q = s.getPath q := by
  cases p <;> cases q <;>
    simp_all [InterventionForm.setPath, InterventionForm.getPath,
      InterventionForm.getTop_updateField, updateField_injection_details,
      updateField_test_details, updateField_treatment_details,
      updateField_procedure_details, updateInjection_getTop, updateTest_getTop,
      updateTreatment_getTop, updateProcedure_getTop,
      (updateInjection_proj _ _ _).1, (updateInjection_proj _ _ _).2.1,
      (updateInjection_proj _ _ _).2.2.1, (updateInjection_proj _ _ _).2.2.2,
      (updateTest_proj _ _ _).1, (updateTest_proj _ _ _).2.1,
      (updateTest_proj _ _ _).2.2.1, (updateTest_proj _ _ _).2.2.2,
      (updateTreatment_proj _ _ _).1, (updateTreatment_proj _ _ _).2.1,
      (updateTreatment_proj _ _ _).2.2.1, (updateTreatment_proj _ _ _).2.2.2,
      (updateProcedure_proj _ _ _).1, (updateProcedure_proj _ _ _).2.1,
      (updateProcedure_proj _ _ _).2.2.1, (updateProcedure_proj _ _ _).2.2.2,
      injectionDetails_get_set, testDetails_get_set,
      treatmentDetails_get_set, procedureDetails_get_set]

/-- C8: every per-field updater of the visit form and of the intervention
form writes exactly the addressed leaf — the new state holds the new value
there and agrees with the prior state on every other leaf of every
section. -/
theorem setField_frame (st : VisitData) (s : InterventionForm) (p q : VisitPath)
    (p2 q2 : InterventionPath) (v w : JsVal) (hpq : p ≠ q) (h2 : p2 ≠ q2) :
    (st.setPath p v).getPath p = v ∧
    (st.setPath p v).getPath q = st.getPath q ∧
    (s.setPath p2 w).getPath p2 = w ∧
    (s.setPath p2 w).getPath q2 = s.getPath q2 :=
  ⟨visitSetPath_get_same st p v, visitSetPath_frame st p q v hpq,
    interventionSetPath_get_same s p2 w, interventionSetPath_frame s p2 q2 w h2⟩

/-- Witness for C8 at concrete paths of both forms. -/
theorem setField_frame_witness :
    ((initialVisitData "").setPath (.vital .weight) (.str "150")).getPath (.vital .weight)
        = .str "150" ∧
    ((initialVisitData "").setPath (.vital .weight) (.str "150")).getPath (.vital .pulse)
        = (initialVisitData "").getPath (.vital .pulse) ∧
    ((initialInterventionData "p" "d").setPath (.top .location) (.str "home")).getPath
        (.top .location) = .str "home" ∧
    ((initialInterventionData "p" "d").setPath (.top .location) (.str "home")).getPath
        (.injection .dose) = (initialInterventionData "p" "d").getPath (.injection .dose) :=
  setField_frame (initialVisitData "") (initialInterventionData "p" "d")
    (.vital .weight) (.vital .pulse) (.top .location) (.injection .dose)
    (.str "150") (.str "home") (by decide) (by decide)
